import Mathlib

/-!
Shallow embedding of the ART-API repository (an art-style classification
HTTP service plus a WikiArt seeding script) and proofs about it.

Sources embedded:
* src/model.py   : label map, model loader (state-dict normalization), predictor
* src/app.py     : HTTP handlers (/health, /styles, /predict-style, /gallery)
* src/seed_wikiart.py : slugify, compute_id, per-record seeding step

Machine-level details (PIL image decoding, JPEG encoding, the network forward
pass, Cloudinary upload, psycopg2) are opaque in the Python code as well; they
enter the embedding as function parameters, while every piece of logic written
in this repository (string munging, SHA-1 content ids, dict normalization,
top-k selection, request control flow, the seeder loop body) is translated
directly.
-/

namespace ArtAPI

/-! ## seed_wikiart.py : slugify -/

/-- Characters kept verbatim by the regex `[^a-z0-9]+` substitution, i.e. the
class `[a-z0-9]` (the input was lowercased first). -/
def isLowerAlnum (c : Char) : Bool :=
  (97 ≤ c.toNat && c.toNat ≤ 122) || (48 ≤ c.toNat && c.toNat ≤ 57)

/-- Collapse consecutive underscores to one. -/
def collapseUnderscores : List Char → List Char
  | [] => []
  | [c] => [c]
  | c :: d :: rest =>
    if c == '_' && d == '_' then collapseUnderscores (d :: rest)
    else c :: collapseUnderscores (d :: rest)

/-- `re.sub(r"[^a-z0-9]+", "_", s)` : every maximal run of characters outside
`[a-z0-9]` becomes a single underscore. (Each such character becomes an
underscore, and consecutive underscores — exactly the images of those runs —
collapse to one.) -/
def squashNonAlnum (l : List Char) : List Char :=
  collapseUnderscores (l.map (fun c => if isLowerAlnum c then c else '_'))

/-- Python `s.strip("_")` : drop underscores from both ends. -/
def stripUnderscores (l : List Char) : List Char :=
  ((l.dropWhile (fun c => c == '_')).reverse.dropWhile (fun c => c == '_')).reverse

/-- ASCII whitespace removed by Python `str.strip()`. -/
def isSpaceChar (c : Char) : Bool :=
  c == ' ' || c == '\t' || c == '\n' || c == '\r' || c.toNat == 11 || c.toNat == 12

/-- Python `str.strip()` : drop whitespace from both ends. -/
def trimChars (l : List Char) : List Char :=
  ((l.dropWhile isSpaceChar).reverse.dropWhile isSpaceChar).reverse

/-- Python `str.lower()` on one character (ASCII range). -/
def lowerChar (c : Char) : Char :=
  if 65 ≤ c.toNat && c.toNat ≤ 90 then Char.ofNat (c.toNat + 32) else c

/-- `slugify` from src/seed_wikiart.py:
`s = str(x).strip().lower(); s = re.sub(r"[^a-z0-9]+", "_", s); return s.strip("_")`. -/
def slugify (x : String) : String :=
  let s := (trimChars x.toList).map lowerChar
  String.mk (stripUnderscores (squashNonAlnum s))

/-! ## SHA-1 (hashlib.sha1), over byte lists, words as `Nat` mod 2^32 -/

/-- Truncate to a 32-bit word. -/
def w32 (n : Nat) : Nat := n % 4294967296

/-- Rotate a 32-bit word left by `k` bits (for `n < 2^32`). -/
def rotl (k n : Nat) : Nat := w32 (n * 2 ^ k) + n / 2 ^ (32 - k)

/-- Bitwise complement of a 32-bit word (valid for `n < 2^32`). -/
def wnot (n : Nat) : Nat := 4294967295 - n

/-- Big-endian 4-byte groups to 32-bit words. -/
def bytesToWords : List Nat → List Nat
  | b0 :: b1 :: b2 :: b3 :: rest =>
    (b0 * 16777216 + b1 * 65536 + b2 * 256 + b3) :: bytesToWords rest
  | _ => []

/-- SHA-1 message-schedule extension: append
`rotl 1 (w[t-3] ^^^ w[t-8] ^^^ w[t-14] ^^^ w[t-16])` the given number of times. -/
def sha1Extend (ws : List Nat) : Nat → List Nat
  | 0 => ws
  | n + 1 =>
    let t := ws.length
    sha1Extend
      (ws ++ [rotl 1 (ws.getD (t - 3) 0 ^^^ ws.getD (t - 8) 0 ^^^
                      ws.getD (t - 14) 0 ^^^ ws.getD (t - 16) 0)]) n

/-- SHA-1 round function. -/
def sha1F (i b c d : Nat) : Nat :=
  if i < 20 then (b &&& c) ||| (wnot b &&& d)
  else if i < 40 then b ^^^ c ^^^ d
  else if i < 60 then (b &&& c) ||| (b &&& d) ||| (c &&& d)
  else b ^^^ c ^^^ d

/-- SHA-1 round constants. -/
def sha1K (i : Nat) : Nat :=
  if i < 20 then 1518500249
  else if i < 40 then 1859775393
  else if i < 60 then 2400959708
  else 3395469782

/-- The 80 rounds of one SHA-1 chunk. -/
def sha1Rounds (ws : List Nat) :
    Nat → Nat × Nat × Nat × Nat × Nat → Nat × Nat × Nat × Nat × Nat
  | 0, st => st
  | n + 1, (a, b, c, d, e) =>
    let i := 80 - (n + 1)
    let temp := w32 (rotl 5 a + sha1F i b c d + e + sha1K i + ws.getD i 0)
    sha1Rounds ws n (temp, a, rotl 30 b, c, d)

/-- SHA-1 padding: `0x80`, zeros to 56 mod 64, then the bit length big-endian. -/
def sha1Pad (msg : List Nat) : List Nat :=
  let len := msg.length
  let z := (119 - len % 64) % 64
  let ml := 8 * len
  msg ++ [128] ++ List.replicate z 0 ++
    [ml / 2 ^ 56 % 256, ml / 2 ^ 48 % 256, ml / 2 ^ 40 % 256, ml / 2 ^ 32 % 256,
     ml / 2 ^ 24 % 256, ml / 2 ^ 16 % 256, ml / 2 ^ 8 % 256, ml % 256]

/-- Process one 64-byte chunk, updating the five hash words. -/
def sha1Chunk (h : Nat × Nat × Nat × Nat × Nat) (chunk : List Nat) :
    Nat × Nat × Nat × Nat × Nat :=
  let ws := sha1Extend (bytesToWords chunk) 64
  let (h0, h1, h2, h3, h4) := h
  let (a, b, c, d, e) := sha1Rounds ws 80 h
  (w32 (h0 + a), w32 (h1 + b), w32 (h2 + c), w32 (h3 + d), w32 (h4 + e))

/-- Process the given number of leading 64-byte chunks of the byte list. -/
def sha1Chunks (h : Nat × Nat × Nat × Nat × Nat) (bytes : List Nat) :
    Nat → Nat × Nat × Nat × Nat × Nat
  | 0 => h
  | n + 1 => sha1Chunks (sha1Chunk h (bytes.take 64)) (bytes.drop 64) n

/-- One hexadecimal digit. -/
def hexDigit (n : Nat) : Char :=
  if n < 10 then Char.ofNat (48 + n) else Char.ofNat (87 + n)

/-- A 32-bit word as 8 hex characters. -/
def wordHex (n : Nat) : List Char :=
  (List.range 8).map (fun i => hexDigit (n / 2 ^ (28 - 4 * i) % 16))

/-- `hashlib.sha1(bytes).hexdigest()` : the 40-character hex digest. The
padded message length is a multiple of 64, so processing `length / 64`
chunks consumes it exactly. -/
def sha1Hex (msg : List Nat) : String :=
  let padded := sha1Pad msg
  let (h0, h1, h2, h3, h4) :=
    sha1Chunks (1732584193, 4023233417, 2562383102, 271733878, 3285377520)
      padded (padded.length / 64)
  String.mk (wordHex h0 ++ wordHex h1 ++ wordHex h2 ++ wordHex h3 ++ wordHex h4)

/-! ## seed_wikiart.py : compute_id

The PIL image type is abstract (`Img`); `convert("RGB")` and JPEG re-encoding
(`rgb.save(buf, format="JPEG", quality=95)`) are opaque library calls passed
as functions. -/

/-- `compute_id` from src/seed_wikiart.py: slug of the style, an underscore,
and the first 16 hex characters of the SHA-1 of the re-encoded JPEG bytes. -/
def compute_id {Img : Type} (convertRGB : Img → Img) (saveJPEG : Img → List Nat)
    (style : String) (img : Img) : String :=
  let bytes := saveJPEG (convertRGB img)
  let h := String.mk ((sha1Hex bytes).toList.take 16)
  slugify style ++ "_" ++ h

/-! ## model.py : state-dict normalization inside load_model

`torch.load` yields a Python value: a dict of tensors, possibly wrapped in
`{"state_dict": ...}` or `{"model": ...}`. Dicts are association lists in
key-insertion order. -/

/-- A deserialized checkpoint value: a dict or an opaque tensor. -/
inductive PyVal where
  | dict (entries : List (String × PyVal))
  | tensor (n : Nat)

/-- Bool test that `pat` is an initial segment of `l` (Python startswith). -/
def leadsWith : List Char → List Char → Bool
  | [], _ => true
  | _ :: _, [] => false
  | p :: ps, c :: cs => p == c && leadsWith ps cs

/-- Python `s.startswith(pat)`. -/
def startsWithStr (s pat : String) : Bool := leadsWith pat.toList s.toList

/-- Removal of the first occurrence of a (nonempty) pattern from a char list:
the list part of Python `s.replace(pat, "", 1)`. -/
def removeFirst (pat : List Char) : List Char → List Char
  | [] => []
  | c :: cs => if leadsWith pat (c :: cs) then (c :: cs).drop pat.length
               else c :: removeFirst pat cs

/-- Python `s.replace(pat, "", 1)` for a nonempty pattern. -/
def removeFirstStr (pat s : String) : String :=
  String.mk (removeFirst pat.toList s.toList)

/-- Bool test that `pat` occurs as a contiguous sublist (Python `pat in s`). -/
def hasSub (pat : List Char) : List Char → Bool
  | [] => pat.isEmpty
  | c :: cs => leadsWith pat (c :: cs) || hasSub pat cs

/-- The `"module."` key fix of load_model: when any key starts with
`"module."`, build `{k.replace("module.", "", 1): v for k, v in state.items()}`
— the FIRST occurrence of `"module."` is removed from every key. -/
def fixModuleKeys {V : Type} (es : List (String × V)) : List (String × V) :=
  if es.any (fun p => startsWithStr p.1 "module.") then
    es.map (fun p => (removeFirstStr "module." p.1, p.2))
  else es

/-- Modelled from the spec claim (for comparison with `fixModuleKeys`): strip
the leading `"module."` from exactly the keys that carry it, leaving every
other key — including keys not starting with `"module."` — unchanged. -/
def specFixModuleKeys {V : Type} (es : List (String × V)) : List (String × V) :=
  if es.any (fun p => startsWithStr p.1 "module.") then
    es.map (fun p =>
      if startsWithStr p.1 "module." then (String.mk (p.1.toList.drop 7), p.2) else p)
  else es

/-- `"k" in state` for a dict value. -/
def dictContainsKey (es : List (String × PyVal)) (k : String) : Bool :=
  es.any (fun p => p.1 == k)

/-- `state["k"]` (guarded by `dictContainsKey` at use sites). -/
def dictGet (es : List (String × PyVal)) (k : String) : PyVal :=
  ((es.find? (fun p => p.1 == k)).map Prod.snd).getD (.tensor 0)

/-- The two sequential unwrap steps of load_model:
`if isinstance(state, dict) and "state_dict" in state: state = state["state_dict"]`
then the same with key `"model"`. -/
def unwrapState (state : PyVal) : PyVal :=
  let s1 := match state with
    | .dict es => if dictContainsKey es "state_dict" then dictGet es "state_dict" else .dict es
    | v => v
  match s1 with
  | .dict es => if dictContainsKey es "model" then dictGet es "model" else .dict es
  | v => v

/-! ## model.py : predictor -/

/-- One entry of the prediction response. -/
structure PredEntry where
  index : Nat
  style : String
  prob : ℚ
deriving Repr, DecidableEq

/-- The response body of predict_pil. -/
structure PredResult where
  predicted : PredEntry
  top_k : List PredEntry
deriving Repr, DecidableEq

/-- `F.softmax(logits, dim=1)[0]`, with the exponential a parameter. -/
def softmax (exp : ℚ → ℚ) (logits : List ℚ) : List ℚ :=
  logits.map (fun x => exp x / (logits.map exp).sum)

/-- Non-increasing-probability ordering on (class index, probability) pairs. -/
def probGE (p q : Nat × ℚ) : Prop := q.2 ≤ p.2

instance : DecidableRel probGE := fun p q => inferInstanceAs (Decidable (q.2 ≤ p.2))

instance : IsTotal (Nat × ℚ) probGE := ⟨fun p q => le_total q.2 p.2⟩

instance : IsTrans (Nat × ℚ) probGE := ⟨fun _ _ _ h1 h2 => le_trans h2 h1⟩

/-- `torch.topk(probs, k)` paired with `.tolist()` iteration: the k largest
probabilities with their indices, in non-increasing order of value (the tie
order inside torch.topk is unspecified; any sort by non-increasing value
realizes it). -/
def topkPairs (probs : List ℚ) (k : Nat) : List (Nat × ℚ) :=
  (List.insertionSort probGE probs.enum).take k

/-- predict_pil from src/model.py, on the logits the forward pass produced for
the image. `top_k` is an `Int` (a Python int can be negative). The Python
failure modes — `torch.topk` raising on a negative k, and the `results[0]`
IndexError when `results` is empty — are `none`. The label map file has keys
`0..n-1`, so it is a `List String` indexed by class. -/
def predict_pil (exp : ℚ → ℚ) (img_logits : List ℚ) (top_k : Int)
    (idx_to_style : List String) : Option PredResult :=
  let probs := softmax exp img_logits
  let k := min top_k (probs.length : Int)
  if k < 0 then none
  else
    let results := (topkPairs probs k.toNat).map
      (fun p => { index := p.1, style := idx_to_style.getD p.1 "", prob := p.2 })
    match results with
    | [] => none
    | r :: _ => some { predicted := r, top_k := results }

/-! ## app.py : HTTP service -/

/-- A row of the artworks table. -/
structure Artwork where
  id : String
  title : Option String
  artist : Option String
  style : String
  image_url : String
deriving Repr, DecidableEq

/-- A loaded model, abstracted to the output dimension of its final
classifier layer (`model.classifier[1].out_features`). -/
structure TorchModel where
  out_features : Nat
deriving Repr, DecidableEq

/-- The serialized weight file, abstracted to the output dimension of the
stored classifier — what `load_state_dict(strict=True)` compares against the
freshly built classifier. -/
structure Weights where
  classes : Nat

/-- load_model from src/model.py: builds an EfficientNet-B3, swaps in a fresh
`num_classes`-output classifier, normalizes the state dict (`unwrapState` and
`fixModuleKeys` above), and loads strictly — a stored classifier whose shape
differs from `num_classes` makes `load_state_dict(strict=True)` raise. -/
def load_model (w : Weights) (num_classes : Nat) : Except String TorchModel :=
  if w.classes = num_classes then .ok { out_features := num_classes }
  else .error "load_state_dict size mismatch"

/-- Deployment environment of the service plus its opaque library calls.
`Img` abstracts PIL images. -/
structure AppConfig (Img : Type) where
  idx_to_style : List String
  weights : Weights
  weightsPresent : Bool
  modelUrl : Option String
  databaseUrl : Option String
  decode : List Nat → Option Img
  forward : TorchModel → Img → List ℚ
  exp : ℚ → ℚ
  artworks : List Artwork
  shuffle : List Artwork → List Artwork

/-- Mutable server state: the lazily initialized module-level `_model`. -/
structure AppState where
  _model : Option TorchModel
deriving Repr, DecidableEq

/-- Process startup (import of app.py): the label map is read and `_model`
is `None`; neither the weight file nor the weights are touched. -/
def startupState : AppState := ⟨none⟩

/-- ensure_model_file: ok when the weight file is present and nonempty;
otherwise the download needs MODEL_URL (raises when unset). -/
def ensure_model_file {Img : Type} (cfg : AppConfig Img) : Except String Unit :=
  if cfg.weightsPresent then .ok ()
  else match cfg.modelUrl with
    | none => .error "MODEL_URL env var is not set"
    | some _ => .ok ()

/-- get_model: memoized lazy initialization, then the safety assert
`len(idx_to_style) == model.classifier[1].out_features`. On failure the
global `_model` stays `None`. -/
def get_model {Img : Type} (cfg : AppConfig Img) (st : AppState) :
    Except String (TorchModel × AppState) :=
  match st._model with
  | some m => .ok (m, st)
  | none =>
    match ensure_model_file cfg with
    | .error e => .error e
    | .ok _ =>
      match load_model cfg.weights cfg.idx_to_style.length with
      | .error e => .error e
      | .ok m =>
        if cfg.idx_to_style.length = m.out_features then .ok (m, ⟨some m⟩)
        else .error "assert failed"

/-- An HTTP response of the service. -/
inductive Resp where
  | okHealth
  | okStyles (m : List String)
  | okPred (r : PredResult)
  | okGallery (style : String) (items : List Artwork)
  | clientError (code : Nat) (msg : String)
  | serverError (msg : String)

/-- An HTTP request to one of the four routes. -/
inductive Req where
  | health
  | styles
  | predictStyle (content_type : String) (body : List Nat) (top_k : Int)
  | gallery (style : String) (limit : Int) (exclude_id : Option String)

/-- The /predict-style handler: MIME allowlist check, decode, lazy model
initialization, prediction. An uncaught Python exception (model
initialization failure, predict_pil failure) surfaces as an HTTP 500:
`serverError`. The returned state tracks the `_model` global. -/
def predict_style {Img : Type} (cfg : AppConfig Img) (st : AppState)
    (content_type : String) (body : List Nat) (top_k : Int) : Resp × AppState :=
  if !(["image/jpeg", "image/png", "image/webp"].contains content_type) then
    (.clientError 400 "Unsupported file type", st)
  else
    match cfg.decode body with
    | none => (.clientError 400 "Invalid image", st)
    | some img =>
      match get_model cfg st with
      | .error e => (.serverError e, st)
      | .ok (m, st1) =>
        match predict_pil cfg.exp (cfg.forward m img) top_k cfg.idx_to_style with
        | none => (.serverError "IndexError in predict_pil", st1)
        | some r => (.okPred r, st1)

/-- The WHERE clause of the /gallery SQL:
`style = %s AND (%s IS NULL OR id <> %s)`. -/
def galleryFilter (db : List Artwork) (style : String) (exclude_id : Option String) :
    List Artwork :=
  db.filter (fun r => r.style == style &&
    (match exclude_id with
     | none => true
     | some e => r.id != e))

/-- The /gallery handler. FastAPI validates `limit` against `ge=1, le=60`
before the handler runs (422 otherwise); `ORDER BY RANDOM()` is the opaque
`shuffle`; `LIMIT %s` is `take`. -/
def gallery {Img : Type} (cfg : AppConfig Img) (style : String) (limit : Int)
    (exclude_id : Option String) : Resp :=
  if limit < 1 || 60 < limit then .clientError 422 "limit out of range"
  else match cfg.databaseUrl with
    | none => .serverError "DATABASE_URL env var is not set"
    | some _ =>
      .okGallery style
        ((cfg.shuffle (galleryFilter cfg.artworks style exclude_id)).take limit.toNat)

/-- One request against the running service. -/
def handle {Img : Type} (cfg : AppConfig Img) (st : AppState) : Req → Resp × AppState
  | .health => (.okHealth, st)
  | .styles => (.okStyles cfg.idx_to_style, st)
  | .predictStyle ct body k => predict_style cfg st ct body k
  | .gallery style lim excl => (gallery cfg style lim excl, st)

/-! ## seed_wikiart.py : the per-record loop body of main() -/

/-- A raw `ex["style"]` value: a ClassLabel integer code or a string. -/
inductive StyleVal where
  | intCode (n : Nat)
  | strVal (s : String)

/-- One dataset record, with only the fields main() reads. -/
structure SeedRecord (Img : Type) where
  style_val : Option StyleVal
  image : Option Img

/-- Seeder environment: dataset label names, optional whitelist, PER_STYLE,
and the opaque image/upload calls. -/
structure SeedConfig (Img : Type) where
  id_to_style : Option (List String)
  whitelist : Option (List String)
  per_style : Nat
  convertRGB : Img → Img
  saveJPEG : Img → List Nat
  upload : String → Option String

/-- Seeder run state: the `saved_per_style` dict and the artworks table
(id → image_url; the other columns do not steer control flow). -/
structure SeedState where
  saved_per_style : List (String × Nat)
  rows : List (String × String)
deriving Repr, DecidableEq

/-- Style resolution: an int-like code is looked up in the ClassLabel names
when available, otherwise `str(style_val)`. -/
def resolveStyle (id_to_style : Option (List String)) : StyleVal → String
  | .intCode n => match id_to_style with
    | some names => names.getD n ""
    | none => toString n
  | .strVal s => s

/-- `if whitelist and style not in whitelist` — an unset or EMPTY whitelist
is falsy and filters nothing. -/
def whitelistSkips (wl : Option (List String)) (style : String) : Bool :=
  match wl with
  | none => false
  | some l => !l.isEmpty && !l.contains style

/-- `saved_per_style.get(style, 0)`. -/
def getCount (m : List (String × Nat)) (k : String) : Nat :=
  ((m.find? (fun p => p.1 == k)).map Prod.snd).getD 0

/-- Dict update / SQL upsert on an association list keyed by `k`. -/
def setAssoc {V : Type} (m : List (String × V)) (k : String) (v : V) :
    List (String × V) :=
  match m with
  | [] => [(k, v)]
  | (k2, v2) :: rest => if k2 == k then (k, v) :: rest else (k2, v2) :: setAssoc rest k v

/-- `SELECT image_url FROM artworks WHERE id = %s`. -/
def lookupUrl (rows : List (String × String)) (k : String) : Option String :=
  (rows.find? (fun p => p.1 == k)).map Prod.snd

/-- The body of the `for ex in tqdm(ds)` loop in main(), for one record:
skip on missing style, non-whitelisted style, reached quota or missing image;
otherwise compute the content id, reuse the stored URL for a duplicate or
upload (a failed upload is logged and skipped), upsert, and increment the
per-style counter. -/
def stepRecord {Img : Type} (cfg : SeedConfig Img) (st : SeedState)
    (ex : SeedRecord Img) : SeedState :=
  match ex.style_val with
  | none => st
  | some sv =>
    let style := resolveStyle cfg.id_to_style sv
    if whitelistSkips cfg.whitelist style then st
    else
      let c := getCount st.saved_per_style style
      if cfg.per_style ≤ c then st
      else match ex.image with
        | none => st
        | some img =>
          let art_id := compute_id cfg.convertRGB cfg.saveJPEG style img
          match lookupUrl st.rows art_id with
          | some url =>
            { saved_per_style := setAssoc st.saved_per_style style (c + 1),
              rows := setAssoc st.rows art_id url }
          | none =>
            match cfg.upload art_id with
            | none => st
            | some url =>
              { saved_per_style := setAssoc st.saved_per_style style (c + 1),
                rows := setAssoc st.rows art_id url }

/-- A whole seeder pass over a list of dataset records. -/
def runSeeder {Img : Type} (cfg : SeedConfig Img) (st : SeedState)
    (ds : List (SeedRecord Img)) : SeedState :=
  ds.foldl (stepRecord cfg) st

/-! ## Concrete deployments used in witnesses and counterexamples -/

/-- A deployment whose stored classifier (3 outputs) mismatches the 2-entry
label map. -/
def mismatchedCfg : AppConfig Unit :=
  { idx_to_style := ["a", "b"], weights := ⟨3⟩, weightsPresent := true,
    modelUrl := none, databaseUrl := none,
    decode := fun _ => some (), forward := fun _ _ => [1, 1], exp := fun _ => 1,
    artworks := [], shuffle := id }

/-- A matched 2-class deployment; empty upload bodies fail to decode. -/
def matchedCfg : AppConfig Unit :=
  { idx_to_style := ["a", "b"], weights := ⟨2⟩, weightsPresent := true,
    modelUrl := none, databaseUrl := some "postgres://localhost/db",
    decode := fun b => if b.isEmpty then none else some (),
    forward := fun _ _ => [1, 2], exp := fun _ => 1,
    artworks := [⟨"a1", none, none, "Impressionism", "u1"⟩,
                 ⟨"x", none, none, "Impressionism", "u2"⟩,
                 ⟨"b1", none, none, "Cubism", "u3"⟩],
    shuffle := id }

/-- Seeder environment: no whitelist, quota 2, identity image codec, every
upload fails. -/
def seedCfgNoUpload : SeedConfig (List Nat) :=
  { id_to_style := none, whitelist := none, per_style := 2,
    convertRGB := id, saveJPEG := id, upload := fun _ => none }

/-- Seeder environment with the one-style whitelist ["A"] and always
successful uploads. -/
def seedCfgWhitelist : SeedConfig (List Nat) :=
  { id_to_style := none, whitelist := some ["A"], per_style := 1,
    convertRGB := id, saveJPEG := id, upload := fun _ => some "https://cdn/u" }

/-- A seed state already holding the content id of style "A", image bytes
[1, 2, 3] (so that record is a duplicate). -/
def seedStateDup : SeedState :=
  { saved_per_style := [], rows := [("a_7037807198c22a7d", "https://cdn/old")] }

/-! ## Theorems -/

/-- C4: a /predict-style request whose content type is not image/jpeg,
image/png or image/webp gets HTTP 400, and the model singleton is untouched
(the state comes back unchanged, so the model is neither invoked nor
initialized by the request). -/
theorem predict_style_bad_mime {Img : Type} (cfg : AppConfig Img) (st : AppState)
    (ct : String) (body : List Nat) (k : Int)
    (hct : ct ∉ (["image/jpeg", "image/png", "image/webp"] : List String)) :
    predict_style cfg st ct body k = (.clientError 400 "Unsupported file type", st) := by
  have hc : (["image/jpeg", "image/png", "image/webp"] : List String).contains ct = false := by
    simpa using hct
  unfold predict_style
  rw [hc]
  simp

/-- Witness for C4 at content type "text/plain". -/
theorem predict_style_bad_mime_witness :
    "text/plain" ∉ (["image/jpeg", "image/png", "image/webp"] : List String) ∧
    predict_style matchedCfg startupState "text/plain" [1] 5 =
      (.clientError 400 "Unsupported file type", startupState) :=
  ⟨by decide,
   predict_style_bad_mime matchedCfg startupState "text/plain" [1] 5 (by decide)⟩

/-- C9: a /predict-style request with an accepted MIME type whose body fails
to decode gets HTTP 400 with the state unchanged (the model singleton is not
initialized by the request). -/
theorem predict_style_bad_image {Img : Type} (cfg : AppConfig Img) (st : AppState)
    (ct : String) (body : List Nat) (k : Int)
    (hct : ct ∈ (["image/jpeg", "image/png", "image/webp"] : List String))
    (hd : cfg.decode body = none) :
    predict_style cfg st ct body k = (.clientError 400 "Invalid image", st) := by
  have hc : (["image/jpeg", "image/png", "image/webp"] : List String).contains ct = true := by
    simpa using hct
  unfold predict_style
  rw [hc, hd]
  simp

/-- Witness for C9: an accepted MIME type with an undecodable (empty) body. -/
theorem predict_style_bad_image_witness :
    "image/png" ∈ (["image/jpeg", "image/png", "image/webp"] : List String) ∧
    matchedCfg.decode [] = none ∧
    predict_style matchedCfg startupState "image/png" [] 5 =
      (.clientError 400 "Invalid image", startupState) :=
  ⟨by decide, rfl,
   predict_style_bad_image matchedCfg startupState "image/png" [] 5 (by decide) rfl⟩

/-- C5: compute_id is deterministic — two runs (possibly with separately
loaded codec functions) that re-encode the image to identical JPEG bytes and
use the same style produce the identical id — and the id is the style slug,
an underscore, and the first 16 hex characters of the SHA-1 of the re-encoded
bytes. -/
theorem compute_id_deterministic {Img1 Img2 : Type}
    (c1 : Img1 → Img1) (s1 : Img1 → List Nat) (c2 : Img2 → Img2) (s2 : Img2 → List Nat)
    (style1 style2 : String) (i1 : Img1) (i2 : Img2)
    (hbytes : s1 (c1 i1) = s2 (c2 i2)) (hstyle : style1 = style2) :
    compute_id c1 s1 style1 i1 = compute_id c2 s2 style2 i2 ∧
    compute_id c1 s1 style1 i1 =
      slugify style1 ++ "_" ++ String.mk ((sha1Hex (s1 (c1 i1))).toList.take 16) := by
  subst hstyle
  unfold compute_id
  rw [hbytes]
  exact ⟨rfl, rfl⟩

set_option maxRecDepth 100000 in
/-- Witness for C5: both runs on bytes [1, 2, 3], style "Impressionism"; the
id evaluates to "impressionism_7037807198c22a7d". -/
theorem compute_id_deterministic_witness :
    (compute_id id id "Impressionism" ([1, 2, 3] : List Nat) =
       compute_id id id "Impressionism" ([1, 2, 3] : List Nat) ∧
     compute_id id id "Impressionism" ([1, 2, 3] : List Nat) =
       slugify "Impressionism" ++ "_" ++
         String.mk ((sha1Hex (id ([1, 2, 3] : List Nat))).toList.take 16)) ∧
    compute_id id id "Impressionism" ([1, 2, 3] : List Nat) =
      "impressionism_7037807198c22a7d" :=
  ⟨compute_id_deterministic id id id id "Impressionism" "Impressionism"
     [1, 2, 3] [1, 2, 3] rfl rfl,
   by decide⟩

/-- If the pattern leads the list, removing its first occurrence drops
exactly the pattern length from the front. -/
theorem removeFirst_of_leadsWith (pat l : List Char) (h : leadsWith pat l = true) :
    removeFirst pat l = l.drop pat.length := by
  cases l with
  | nil =>
    cases pat with
    | nil => rfl
    | cons p ps => simp [leadsWith] at h
  | cons c cs => simp [removeFirst, h]

/-- A list without any occurrence of the pattern is left unchanged. -/
theorem removeFirst_of_not_hasSub (pat : List Char) :
    ∀ l, hasSub pat l = false → removeFirst pat l = l := by
  intro l
  induction l with
  | nil => intro _; rfl
  | cons c cs ih =>
    intro h
    rw [hasSub, Bool.or_eq_false_iff] at h
    simp [removeFirst, h.1, ih h.2]

/-- C6 counterexample: with state-dict keys "module.a" (a leading prefix)
and "x.module.b" (an interior occurrence), load_model renames "x.module.b"
to "x.b", while the claim says keys not starting with "module." are left
unchanged. -/
theorem load_model_key_fix_cex :
    fixModuleKeys [("module.a", (0 : Nat)), ("x.module.b", 1)] = [("a", 0), ("x.b", 1)] ∧
    startsWithStr "x.module.b" "module." = false ∧
    fixModuleKeys [("module.a", (0 : Nat)), ("x.module.b", 1)] ≠
      specFixModuleKeys [("module.a", (0 : Nat)), ("x.module.b", 1)] := by
  decide

/-- C6 (amended): load_model unwraps the nested {"state_dict": ...} and
{"model": ...} wrappers, and then, whenever any key starts with "module.",
removes the FIRST occurrence of the substring "module." from every key: a
key starting with "module." loses exactly that leading prefix and a key with
no occurrence at all is unchanged, but a key containing "module." only in
its interior is altered as well. -/
theorem load_model_key_fix {V : Type} (es : List (String × V))
    (htrig : es.any (fun p => startsWithStr p.1 "module.") = true) :
    fixModuleKeys es = es.map (fun p => (removeFirstStr "module." p.1, p.2)) ∧
    (∀ k : String, startsWithStr k "module." = true →
       removeFirstStr "module." k = String.mk (k.toList.drop 7)) ∧
    (∀ k : String, hasSub "module.".toList k.toList = false →
       removeFirstStr "module." k = k) ∧
    (∀ v : PyVal, unwrapState (.dict [("state_dict", .dict [("model", v)])]) = v) := by
  refine ⟨by simp [fixModuleKeys, htrig], ?_, ?_, fun v => rfl⟩
  · intro k hk
    unfold removeFirstStr
    rw [removeFirst_of_leadsWith _ _ hk]
    rfl
  · intro k hk
    unfold removeFirstStr
    rw [removeFirst_of_not_hasSub _ _ hk]
    cases k
    rfl

/-- Witness for C6 (amended), at the counterexample key set. -/
theorem load_model_key_fix_witness :
    ([("module.a", (0 : Nat)), ("x.module.b", 1)].any
       (fun p => startsWithStr p.1 "module.") = true) ∧
    fixModuleKeys [("module.a", (0 : Nat)), ("x.module.b", 1)] =
      [("module.a", (0 : Nat)), ("x.module.b", 1)].map
        (fun p => (removeFirstStr "module." p.1, p.2)) :=
  ⟨by decide, (load_model_key_fix _ (by decide)).1⟩

set_option maxRecDepth 100000 in
/-- C8 counterexample: the whitelist is an allowlist, not a skip list — a
record whose style IS on the configured whitelist ["A"] is processed (the
state changes: its per-style counter becomes 1 and a row is inserted), not
skipped. -/
theorem seeder_whitelist_cex :
    seedCfgWhitelist.whitelist = some ["A"] ∧
    resolveStyle seedCfgWhitelist.id_to_style (.strVal "A") ∈ (["A"] : List String) ∧
    stepRecord seedCfgWhitelist ⟨[], []⟩ ⟨some (.strVal "A"), some [1, 2, 3]⟩ ≠ ⟨[], []⟩ := by
  refine ⟨rfl, by decide, ?_⟩
  decide

/-- C8 (amended): when a nonempty whitelist is configured, the seeder skips a
record exactly when its style is NOT on the whitelist; here: a non-listed
style leaves the seeder state unchanged. -/
theorem seeder_whitelist_skip {Img : Type} (cfg : SeedConfig Img) (st : SeedState)
    (ex : SeedRecord Img) (sv : StyleVal) (wl : List String)
    (hwl : cfg.whitelist = some wl) (hne : wl ≠ [])
    (hsv : ex.style_val = some sv)
    (hmem : resolveStyle cfg.id_to_style sv ∉ wl) :
    stepRecord cfg st ex = st := by
  have hskip : whitelistSkips cfg.whitelist (resolveStyle cfg.id_to_style sv) = true := by
    simp [whitelistSkips, hwl, hne, hmem]
  unfold stepRecord
  rw [hsv]
  simp [hskip]

/-- Witness for C8 (amended): style "B" against whitelist ["A"] is skipped. -/
theorem seeder_whitelist_skip_witness :
    seedCfgWhitelist.whitelist = some ["A"] ∧
    resolveStyle seedCfgWhitelist.id_to_style (.strVal "B") ∉ (["A"] : List String) ∧
    stepRecord seedCfgWhitelist ⟨[], []⟩ ⟨some (.strVal "B"), some [1, 2, 3]⟩ = ⟨[], []⟩ :=
  ⟨rfl, by decide,
   seeder_whitelist_skip seedCfgWhitelist ⟨[], []⟩ ⟨some (.strVal "B"), some [1, 2, 3]⟩
     (.strVal "B") ["A"] rfl (by decide) rfl (by decide)⟩

/-- With a label-count/weights mismatch and no memoized model, get_model
fails and the singleton stays uninitialized. -/
theorem get_model_mismatch {Img : Type} (cfg : AppConfig Img)
    (hmis : cfg.idx_to_style.length ≠ cfg.weights.classes) :
    ∃ e, get_model cfg startupState = .error e := by
  have hload : load_model cfg.weights cfg.idx_to_style.length =
      .error "load_state_dict size mismatch" := by
    unfold load_model
    rw [if_neg (fun h => hmis h.symm)]
  unfold get_model startupState
  cases h : ensure_model_file cfg with
  | error e => exact ⟨e, rfl⟩
  | ok u => rw [hload]; exact ⟨"load_state_dict size mismatch", rfl⟩

/-- The /gallery handler never produces a prediction response. -/
theorem gallery_ne_okPred {Img : Type} (cfg : AppConfig Img) (style : String)
    (lim : Int) (excl : Option String) (p : PredResult) :
    gallery cfg style lim excl ≠ .okPred p := by
  unfold gallery
  split
  · intro h; cases h
  · split
    · intro h; cases h
    · intro h; cases h

/-- C1 is false as stated: with a weight file holding a 3-class classifier
against a 2-entry label map, the service starts normally and serves /health
— nothing fails before the first request. -/
theorem mismatch_not_startup_failure :
    mismatchedCfg.idx_to_style.length ≠ mismatchedCfg.weights.classes ∧
    handle mismatchedCfg startupState .health = (.okHealth, startupState) :=
  ⟨by decide, rfl⟩

/-- C1 (amended): a label-map/weights class-count mismatch does not stop
startup; it surfaces at the first prediction request. From the startup state
no request is ever answered with a prediction and the model singleton stays
uninitialized, and a well-formed prediction request (accepted MIME type,
decodable image) is answered with a server error — the strict state-dict
load fails inside get_model. -/
theorem mismatch_fails_at_first_predict {Img : Type} (cfg : AppConfig Img)
    (hmis : cfg.idx_to_style.length ≠ cfg.weights.classes) :
    (∀ req : Req, (∀ p, (handle cfg startupState req).1 ≠ .okPred p) ∧
       ((handle cfg startupState req).2)._model = none) ∧
    (∀ (ct : String) (body : List Nat) (k : Int) img,
       ct ∈ (["image/jpeg", "image/png", "image/webp"] : List String) →
       cfg.decode body = some img →
       ∃ msg, predict_style cfg startupState ct body k = (.serverError msg, startupState)) := by
  obtain ⟨e, he⟩ := get_model_mismatch cfg hmis
  constructor
  · intro req
    cases req with
    | health => exact ⟨fun p h => Resp.noConfusion h, rfl⟩
    | styles => exact ⟨fun p h => Resp.noConfusion h, rfl⟩
    | gallery style lim excl =>
      exact ⟨fun p => gallery_ne_okPred cfg style lim excl p, rfl⟩
    | predictStyle ct body k =>
      show (∀ p, (predict_style cfg startupState ct body k).1 ≠ .okPred p) ∧
        ((predict_style cfg startupState ct body k).2)._model = none
      unfold predict_style
      cases hct : (["image/jpeg", "image/png", "image/webp"] : List String).contains ct with
      | false => exact ⟨fun p h => Resp.noConfusion h, rfl⟩
      | true =>
        simp only [Bool.not_true, Bool.false_eq_true, if_false]
        cases hd : cfg.decode body with
        | none => exact ⟨fun p h => Resp.noConfusion h, rfl⟩
        | some img =>
          rw [he]
          exact ⟨fun p h => Resp.noConfusion h, rfl⟩
  · intro ct body k img hct hd
    have hc : (["image/jpeg", "image/png", "image/webp"] : List String).contains ct = true := by
      simpa using hct
    unfold predict_style
    rw [hc, hd, he]
    exact ⟨e, rfl⟩

/-- Witness for C1 (amended), at the mismatched deployment. -/
theorem mismatch_fails_at_first_predict_witness :
    mismatchedCfg.idx_to_style.length ≠ mismatchedCfg.weights.classes ∧
    ∃ msg, predict_style mismatchedCfg startupState "image/png" [1] 5 =
      (.serverError msg, startupState) :=
  ⟨by decide,
   (mismatch_fails_at_first_predict mismatchedCfg (by decide)).2 "image/png" [1] 5 ()
     (by decide) rfl⟩

/-- C3: a /gallery call with a limit in [1, 60] — `ORDER BY RANDOM()` taken
as any permutation of the rows matching the WHERE clause — returns at most
`limit` rows, every returned row has the queried style, and no returned row
has the excluded id. -/
theorem gallery_rows_spec {Img : Type} (cfg : AppConfig Img) (st : AppState)
    (style : String) (lim : Int) (excl : Option String)
    (hlo : 1 ≤ lim) (hhi : lim ≤ 60) (hdb : cfg.databaseUrl.isSome)
    (hperm : (cfg.shuffle (galleryFilter cfg.artworks style excl)).Perm
               (galleryFilter cfg.artworks style excl)) :
    ∃ rows, handle cfg st (.gallery style lim excl) = (.okGallery style rows, st) ∧
      rows.length ≤ lim.toNat ∧
      ∀ r ∈ rows, r.style = style ∧ ∀ e, excl = some e → r.id ≠ e := by
  obtain ⟨u, hu⟩ := Option.isSome_iff_exists.mp hdb
  have h1 : ¬ lim < 1 := by omega
  have h2 : ¬ 60 < lim := by omega
  refine ⟨(cfg.shuffle (galleryFilter cfg.artworks style excl)).take lim.toNat, ?_, ?_, ?_⟩
  · show (gallery cfg style lim excl, st) = _
    unfold gallery
    rw [hu]
    simp [h1, h2]
  · exact List.length_take_le lim.toNat _
  · intro r hr
    have hmem : r ∈ galleryFilter cfg.artworks style excl :=
      hperm.subset (List.take_subset _ _ hr)
    have hp := List.of_mem_filter hmem
    rw [Bool.and_eq_true] at hp
    refine ⟨by simpa using hp.1, ?_⟩
    intro e he
    subst he
    simpa using hp.2

/-- Witness for C3: three artworks, limit 5, excluding id "x"; only the
Impressionism row distinct from "x" comes back. -/
theorem gallery_rows_spec_witness :
    (1 : Int) ≤ 5 ∧ (5 : Int) ≤ 60 ∧ matchedCfg.databaseUrl.isSome = true ∧
    ∃ rows, handle matchedCfg startupState (.gallery "Impressionism" 5 (some "x")) =
        (.okGallery "Impressionism" rows, startupState) ∧
      rows.length ≤ (5 : Int).toNat ∧
      ∀ r ∈ rows, r.style = "Impressionism" ∧
        ∀ e, (some "x" : Option String) = some e → r.id ≠ e :=
  ⟨by decide, by decide, rfl,
   gallery_rows_spec matchedCfg startupState "Impressionism" 5 (some "x")
     (by decide) (by decide) rfl (List.Perm.refl _)⟩

/-- Summing a list divided elementwise by a constant. -/
theorem sum_map_div (l : List ℚ) (c : ℚ) :
    (l.map (fun x => x / c)).sum = l.sum / c := by
  induction l with
  | nil => simp
  | cons a as ih => simp [ih, add_div]

/-- The softmax output sums to exactly 1 on a nonempty logit list, for any
positive exponential. -/
theorem softmax_sum_one (exp : ℚ → ℚ) (logits : List ℚ)
    (hne : logits ≠ []) (hpos : ∀ x, 0 < exp x) :
    (softmax exp logits).sum = 1 := by
  have hS : 0 < (logits.map exp).sum := by
    refine List.sum_pos _ ?_ (by simpa using hne)
    intro x hx
    obtain ⟨y, _, hy⟩ := List.mem_map.mp hx
    exact hy ▸ hpos y
  have hmap : softmax exp logits = (logits.map exp).map (fun y => y / (logits.map exp).sum) := by
    simp [softmax, List.map_map, Function.comp]
  rw [hmap, sum_map_div, div_self (ne_of_gt hS)]

/-- topkPairs is sorted by non-increasing probability. -/
theorem topkPairs_sorted (probs : List ℚ) (k : Nat) :
    (topkPairs probs k).Pairwise (fun p q => q.2 ≤ p.2) :=
  (List.sorted_insertionSort probGE probs.enum).sublist (List.take_sublist _ _)

/-- topkPairs returns `min k n` entries for `n` classes. -/
theorem topkPairs_length (probs : List ℚ) (k : Nat) :
    (topkPairs probs k).length = min k probs.length := by
  simp [topkPairs, List.length_insertionSort]

/-- C2: on any decodable image (any logit list the network can produce, one
logit per class) and any requested top_k ≥ 1, predict_pil succeeds; its
`top_k` list has length `min(top_k, num_classes)` and is sorted by
non-increasing probability, and the softmax probabilities over ALL classes
sum to exactly 1. -/
theorem predict_pil_topk_spec (exp : ℚ → ℚ) (logits : List ℚ)
    (labels : List String) (k : Int)
    (hk : 1 ≤ k) (hne : logits ≠ []) (hpos : ∀ x, 0 < exp x) :
    ∃ r, predict_pil exp logits k labels = some r ∧
      r.top_k.length = min k.toNat logits.length ∧
      r.top_k.Pairwise (fun a b => b.prob ≤ a.prob) ∧
      (softmax exp logits).sum = 1 := by
  have hlen : (softmax exp logits).length = logits.length := by simp [softmax]
  have hn : 0 < logits.length := List.length_pos.mpr hne
  have hnotneg : ¬ min k ((softmax exp logits).length : Int) < 0 := by
    rw [hlen]; omega
  have htoNat : (min k ((softmax exp logits).length : Int)).toNat =
      min k.toNat logits.length := by
    rw [hlen]; omega
  have hreslen :
      ((topkPairs (softmax exp logits)
          (min k ((softmax exp logits).length : Int)).toNat).map
        (fun p => PredEntry.mk p.1 (labels.getD p.1 "") p.2)).length =
        min k.toNat logits.length := by
    rw [List.length_map, topkPairs_length, htoNat, hlen]
    omega
  have hpos' : 0 < min k.toNat logits.length := by omega
  obtain ⟨r, rs, hcons⟩ :
      ∃ r rs, (topkPairs (softmax exp logits)
          (min k ((softmax exp logits).length : Int)).toNat).map
        (fun p => PredEntry.mk p.1 (labels.getD p.1 "") p.2) = r :: rs := by
    cases hres : (topkPairs (softmax exp logits)
        (min k ((softmax exp logits).length : Int)).toNat).map
        (fun p => PredEntry.mk p.1 (labels.getD p.1 "") p.2) with
    | nil => rw [hres] at hreslen; simp at hreslen; omega
    | cons r rs => exact ⟨r, rs, rfl⟩
  refine ⟨⟨r, r :: rs⟩, ?_, ?_, ?_, softmax_sum_one exp logits hne hpos⟩
  · unfold predict_pil
    rw [if_neg hnotneg, hcons]
  · rw [← hcons]
    exact hreslen
  · rw [← hcons]
    rw [List.pairwise_map]
    exact topkPairs_sorted _ _


/-- Witness for C2: logits [1, 2] with constant exponential 1, top_k = 1. -/
theorem predict_pil_topk_spec_witness :
    (1 : Int) ≤ 1 ∧ ([(1 : ℚ), 2] ≠ []) ∧ (0 : ℚ) < 1 ∧
    ∃ r, predict_pil (fun _ => 1) [(1 : ℚ), 2] 1 ["a", "b"] = some r ∧
      r.top_k.length = min (1 : Int).toNat [(1 : ℚ), 2].length ∧
      r.top_k.Pairwise (fun a b => b.prob ≤ a.prob) ∧
      (softmax (fun _ => 1) [(1 : ℚ), 2]).sum = 1 :=
  ⟨le_refl 1, by decide, by norm_num,
   predict_pil_topk_spec (fun _ => 1) [(1 : ℚ), 2] ["a", "b"] 1
     (le_refl 1) (by decide) (fun _ => by norm_num)⟩

/-- predict_pil fails whenever the requested top_k is ≤ 0: the clamp
min(top_k, num_classes) only bounds it from above, so torch.topk raises on a
negative k and for k = 0 the empty `results` makes `results[0]` an
IndexError. -/
theorem predict_pil_nonpos_topk (exp : ℚ → ℚ) (logits : List ℚ)
    (labels : List String) (k : Int) (hk : k ≤ 0) :
    predict_pil exp logits k labels = none := by
  unfold predict_pil
  by_cases h : min k ((softmax exp logits).length : Int) < 0
  · simp [h]
  · have h0 : min k ((softmax exp logits).length : Int) = 0 := by omega
    rw [if_neg h, h0]
    simp [topkPairs]

/-- C10: a /predict-style request with a valid (accepted, decodable) image
but top_k ≤ 0 makes predict_pil fail, and the service answers with a
server-side error (HTTP 500 surface), not a 400 client error. -/
theorem predict_style_nonpos_topk {Img : Type} (cfg : AppConfig Img) (st : AppState)
    (m : TorchModel) (ct : String) (body : List Nat) (img : Img) (k : Int)
    (hm : st._model = some m)
    (hct : ct ∈ (["image/jpeg", "image/png", "image/webp"] : List String))
    (hd : cfg.decode body = some img) (hk : k ≤ 0) :
    predict_pil cfg.exp (cfg.forward m img) k cfg.idx_to_style = none ∧
    predict_style cfg st ct body k = (.serverError "IndexError in predict_pil", st) := by
  have hp := predict_pil_nonpos_topk cfg.exp (cfg.forward m img) cfg.idx_to_style k hk
  have hc : (["image/jpeg", "image/png", "image/webp"] : List String).contains ct = true := by
    simpa using hct
  have hgm : get_model cfg st = .ok (m, st) := by
    unfold get_model
    rw [hm]
  refine ⟨hp, ?_⟩
  simp only [predict_style, hc, Bool.not_true, Bool.false_eq_true, if_false, hd, hgm, hp]

/-- Witness for C10: top_k = 0 with a decodable body and an already
initialized model. -/
theorem predict_style_nonpos_topk_witness :
    (⟨some ⟨2⟩⟩ : AppState)._model = some ⟨2⟩ ∧
    "image/jpeg" ∈ (["image/jpeg", "image/png", "image/webp"] : List String) ∧
    matchedCfg.decode [1] = some () ∧ (0 : Int) ≤ 0 ∧
    (predict_pil matchedCfg.exp (matchedCfg.forward ⟨2⟩ ()) 0 matchedCfg.idx_to_style = none ∧
     predict_style matchedCfg ⟨some ⟨2⟩⟩ "image/jpeg" [1] 0 =
       (.serverError "IndexError in predict_pil", ⟨some ⟨2⟩⟩)) :=
  ⟨rfl, by decide, rfl, le_refl 0,
   predict_style_nonpos_topk matchedCfg ⟨some ⟨2⟩⟩ ⟨2⟩ "image/jpeg" [1] () 0
     rfl (by decide) rfl (le_refl 0)⟩

/-- Updating an existing key of the counter dict: reading that key gives the
new value. -/
theorem getCount_setAssoc_self (m : List (String × Nat)) (k : String) (v : Nat) :
    getCount (setAssoc m k v) k = v := by
  induction m with
  | nil => simp [setAssoc, getCount]
  | cons p rest ih =>
    obtain ⟨k2, v2⟩ := p
    by_cases h : k2 = k
    · subst h
      simp [setAssoc, getCount]
    · have hb : (k2 == k) = false := beq_eq_false_iff_ne.mpr h
      simp only [setAssoc, hb, Bool.false_eq_true, if_false]
      simpa [getCount, List.find?, hb] using ih

/-- Upserting an id already present in the table does not change the number
of rows. -/
theorem length_setAssoc_of_found {V : Type} (m : List (String × V)) (k : String) (v : V)
    (h : (m.find? (fun p => p.1 == k)).isSome) :
    (setAssoc m k v).length = m.length := by
  induction m with
  | nil => simp [List.find?] at h
  | cons p rest ih =>
    obtain ⟨k2, v2⟩ := p
    by_cases hk : (k2 == k) = true
    · simp [setAssoc, hk]
    · have hb : (k2 == k) = false := by simpa using hk
      rw [List.find?_cons_of_neg _ (by simpa using hk)] at h
      simp [setAssoc, hb, ih h]

/-- C7: in the seeder loop body, once a record passes the style, whitelist
and image checks: under quota, a duplicate record (its content id already
has a stored URL) still increments the per-style counter while inserting no
new row; a record whose upload fails leaves the state unchanged (no
increment); a record whose upload succeeds increments the counter; and a
record at or over quota is skipped. PER_STYLE therefore bounds attempted
records per style, not successfully inserted new rows. -/
theorem seeder_counter_spec {Img : Type} (cfg : SeedConfig Img) (st : SeedState)
    (ex : SeedRecord Img) (sv : StyleVal) (img : Img)
    (hsv : ex.style_val = some sv) (himg : ex.image = some img)
    (hwl : whitelistSkips cfg.whitelist (resolveStyle cfg.id_to_style sv) = false) :
    (∀ url, getCount st.saved_per_style (resolveStyle cfg.id_to_style sv) < cfg.per_style →
       lookupUrl st.rows (compute_id cfg.convertRGB cfg.saveJPEG
         (resolveStyle cfg.id_to_style sv) img) = some url →
       getCount (stepRecord cfg st ex).saved_per_style (resolveStyle cfg.id_to_style sv) =
         getCount st.saved_per_style (resolveStyle cfg.id_to_style sv) + 1 ∧
       (stepRecord cfg st ex).rows.length = st.rows.length) ∧
    (getCount st.saved_per_style (resolveStyle cfg.id_to_style sv) < cfg.per_style →
       lookupUrl st.rows (compute_id cfg.convertRGB cfg.saveJPEG
         (resolveStyle cfg.id_to_style sv) img) = none →
       cfg.upload (compute_id cfg.convertRGB cfg.saveJPEG
         (resolveStyle cfg.id_to_style sv) img) = none →
       stepRecord cfg st ex = st) ∧
    (∀ url, getCount st.saved_per_style (resolveStyle cfg.id_to_style sv) < cfg.per_style →
       lookupUrl st.rows (compute_id cfg.convertRGB cfg.saveJPEG
         (resolveStyle cfg.id_to_style sv) img) = none →
       cfg.upload (compute_id cfg.convertRGB cfg.saveJPEG
         (resolveStyle cfg.id_to_style sv) img) = some url →
       getCount (stepRecord cfg st ex).saved_per_style (resolveStyle cfg.id_to_style sv) =
         getCount st.saved_per_style (resolveStyle cfg.id_to_style sv) + 1) ∧
    (cfg.per_style ≤ getCount st.saved_per_style (resolveStyle cfg.id_to_style sv) →
       stepRecord cfg st ex = st) := by
  refine ⟨?_, ?_, ?_, ?_⟩
  · intro url hq hdup
    have hq' : ¬ cfg.per_style ≤ getCount st.saved_per_style (resolveStyle cfg.id_to_style sv) := by
      omega
    have hfound : (st.rows.find? (fun p => p.1 == compute_id cfg.convertRGB cfg.saveJPEG
        (resolveStyle cfg.id_to_style sv) img)).isSome := by
      rw [lookupUrl] at hdup
      cases hfind : st.rows.find? (fun p => p.1 == compute_id cfg.convertRGB cfg.saveJPEG
          (resolveStyle cfg.id_to_style sv) img) with
      | none => rw [hfind] at hdup; simp at hdup
      | some p => rfl
    simp only [stepRecord, hsv, hwl, Bool.false_eq_true, if_false, hq', himg, hdup]
    exact ⟨getCount_setAssoc_self _ _ _, length_setAssoc_of_found _ _ _ hfound⟩
  · intro hq hdup hup
    have hq' : ¬ cfg.per_style ≤ getCount st.saved_per_style (resolveStyle cfg.id_to_style sv) := by
      omega
    simp only [stepRecord, hsv, hwl, Bool.false_eq_true, if_false, hq', himg, hdup, hup]
  · intro url hq hdup hup
    have hq' : ¬ cfg.per_style ≤ getCount st.saved_per_style (resolveStyle cfg.id_to_style sv) := by
      omega
    simp only [stepRecord, hsv, hwl, Bool.false_eq_true, if_false, hq', himg, hdup, hup]
    exact getCount_setAssoc_self _ _ _
  · intro hq
    simp only [stepRecord, hsv, hwl, Bool.false_eq_true, if_false, hq, if_true]

set_option maxRecDepth 100000 in
/-- Witness for C7: a duplicate record of style "A" (its content id is
already in the table) increments the per-style counter to 1 while the table
keeps its single row. -/
theorem seeder_counter_spec_witness :
    (⟨some (.strVal "A"), some [1, 2, 3]⟩ : SeedRecord (List Nat)).style_val =
      some (.strVal "A") ∧
    whitelistSkips seedCfgNoUpload.whitelist
      (resolveStyle seedCfgNoUpload.id_to_style (.strVal "A")) = false ∧
    getCount seedStateDup.saved_per_style
      (resolveStyle seedCfgNoUpload.id_to_style (.strVal "A")) < seedCfgNoUpload.per_style ∧
    lookupUrl seedStateDup.rows
      (compute_id seedCfgNoUpload.convertRGB seedCfgNoUpload.saveJPEG
        (resolveStyle seedCfgNoUpload.id_to_style (.strVal "A")) [1, 2, 3]) =
      some "https://cdn/old" ∧
    (getCount (stepRecord seedCfgNoUpload seedStateDup
         ⟨some (.strVal "A"), some [1, 2, 3]⟩).saved_per_style
       (resolveStyle seedCfgNoUpload.id_to_style (.strVal "A")) =
     getCount seedStateDup.saved_per_style
       (resolveStyle seedCfgNoUpload.id_to_style (.strVal "A")) + 1 ∧
     (stepRecord seedCfgNoUpload seedStateDup
        ⟨some (.strVal "A"), some [1, 2, 3]⟩).rows.length = seedStateDup.rows.length) :=
  ⟨rfl, rfl, by decide, by decide,
   (seeder_counter_spec seedCfgNoUpload seedStateDup ⟨some (.strVal "A"), some [1, 2, 3]⟩
      (.strVal "A") [1, 2, 3] rfl rfl rfl).1 "https://cdn/old" (by decide) (by decide)⟩

end ArtAPI
